import Mathlib

/-
  Verification of the lepisense-input-api core: temporal deployment
  resolution, hierarchical storage-key construction, session-date
  rollover and the idempotent inference ledger.

  The Python sources (app/api/routes/*.py, app/sqlmodels.py) are shallowly
  embedded: relational tables become lists of row structures, SQLModel
  queries become List.find? / List.filter, HTTPException becomes an error
  value of type ApiError, and the database session threading becomes
  explicit state passing (Db in, Db out).
-/

namespace LepiSense

/-- Calendar date mirroring Python datetime.date (year, month, day). -/
structure CalDate where
  year : Nat
  month : Nat
  day : Nat
deriving DecidableEq, Repr

/-- Python date comparison is lexicographic on (year, month, day): strict less-than. -/
def CalDate.ltb (a b : CalDate) : Bool :=
  Nat.blt a.year b.year ||
    (Nat.beq a.year b.year &&
      (Nat.blt a.month b.month ||
        (Nat.beq a.month b.month && Nat.blt a.day b.day)))

/-- Python date comparison is lexicographic on (year, month, day): less-or-equal. -/
def CalDate.leb (a b : CalDate) : Bool :=
  Nat.blt a.year b.year ||
    (Nat.beq a.year b.year &&
      (Nat.blt a.month b.month ||
        (Nat.beq a.month b.month && Nat.ble a.day b.day)))

/-- Gregorian leap year rule, as used by Python's datetime module. -/
def isLeapYear (y : Nat) : Bool :=
  (y % 4 == 0 && y % 100 != 0) || y % 400 == 0

/-- Number of days in a Gregorian month. -/
def daysInMonth (y m : Nat) : Nat :=
  if m == 2 then (if isLeapYear y then 29 else 28)
  else if m == 4 || m == 6 || m == 9 || m == 11 then 30
  else 31

/-- Validity of (year, month, day) as a Python datetime.date
(date() raises ValueError outside these bounds). -/
def isValidDate (y m d : Nat) : Bool :=
  1 ≤ y && y ≤ 9999 && 1 ≤ m && m ≤ 12 && 1 ≤ d && d ≤ daysInMonth y m

/-- Python `date - timedelta(days=1)`: the previous calendar day. -/
def CalDate.predDay (d : CalDate) : CalDate :=
  if 1 < d.day then ⟨d.year, d.month, d.day - 1⟩
  else if 1 < d.month then ⟨d.year, d.month - 1, daysInMonth d.year (d.month - 1)⟩
  else ⟨d.year - 1, 12, 31⟩

/-- Python str.upper() restricted to ASCII letters (all names in this API are ASCII). -/
def pyUpper (s : String) : String := ⟨s.data.map Char.toUpper⟩

/-- Python str.lower() restricted to ASCII letters. -/
def pyLower (s : String) : String := ⟨s.data.map Char.toLower⟩

/-- Lexicographic comparison of character lists by code point,
matching Python string `<`. -/
def charListLt : List Char → List Char → Bool
  | [], [] => false
  | [], _ :: _ => true
  | _ :: _, [] => false
  | a :: as, b :: bs =>
    if a < b then true else if b < a then false else charListLt as bs

/-- Python string `<` (lexicographic by code point). -/
def pyStrLt (a b : String) : Bool := charListLt a.data b.data

/-- Characters of a string before the first dot. -/
def takeUntilDot : List Char → List Char
  | [] => []
  | c :: cs => if c = '.' then [] else c :: takeUntilDot cs

/-- Python `s.split(".")[0]`: the part of the string before the first dot. -/
def pyHeadSplitDot (s : String) : String := ⟨takeUntilDot s.data⟩

/-- Python `f"{n:02d}"` for a non-negative n: zero-pad to two digits. -/
def pad2 (n : Nat) : String :=
  if n < 10 then "0" ++ Nat.repr n else Nat.repr n

/-- Zero-pad to four digits (year rendering of Python str(date)). -/
def pad4 (n : Nat) : String :=
  if n < 10 then "000" ++ Nat.repr n
  else if n < 100 then "00" ++ Nat.repr n
  else if n < 1000 then "0" ++ Nat.repr n
  else Nat.repr n

/-- Python str(date): ISO format YYYY-MM-DD. -/
def dateStr (d : CalDate) : String :=
  pad4 d.year ++ "-" ++ pad2 d.month ++ "-" ++ pad2 d.day

/-- Python str() of an optional date (str(None) prints "None"). -/
def optDateStr : Option CalDate → String
  | some d => dateStr d
  | none => "None"

/-! ## Data model (app/sqlmodels.py) -/

/-- Organisation row. -/
structure Organisation where
  name : String
  full_name : String
  deleted : Bool
deriving DecidableEq, Repr

/-- Country row. -/
structure Country where
  code : String
  name : String
  deleted : Bool
deriving DecidableEq, Repr

/-- Network row. -/
structure Network where
  id : Nat
  organisation_name : String
  country_code : String
  name : String
  deleted : Bool
deriving DecidableEq, Repr

/-- Deployment row. The latitude/longitude floats and the description are
never read by any function modelled here and are omitted. -/
structure Deployment where
  id : Nat
  network_id : Nat
  devicetype_name : String
  name : String
  active : Bool
  deleted : Bool
deriving DecidableEq, Repr

/-- Device row. -/
structure Device where
  id : String
  name : Option String
  devicetype_name : String
  version : String
  current_deployment_id : Option Nat
  deleted : Bool
deriving DecidableEq, Repr

/-- DeviceType row. -/
structure DeviceType where
  name : String
  description : String
  night_session : Bool
  deleted : Bool
deriving DecidableEq, Repr

/-- DeploymentDevice (assignment) row. end_date is nullable in the schema. -/
structure DeploymentDevice where
  id : Nat
  device_id : String
  deployment_id : Nat
  start_date : CalDate
  end_date : Option CalDate
  deleted : Bool
deriving DecidableEq, Repr

/-- Inference (job ledger) row. -/
structure Inference where
  id : Nat
  device_id : String
  deployment_id : Nat
  session_date : CalDate
  task_arn : Option String
  completed : Bool
  deleted : Bool
deriving DecidableEq, Repr

/-- The relational store: one list per table, in insertion order
(autoincrement primary keys grow with the list). -/
structure Db where
  organisations : List Organisation
  countries : List Country
  networks : List Network
  deployments : List Deployment
  devices : List Device
  devicetypes : List DeviceType
  deploymentdevices : List DeploymentDevice
  inferences : List Inference
deriving Repr

/-- HTTPException, by status code family, plus the unhandled-exception
case (a Python exception escaping the endpoint as a 500). -/
inductive ApiError where
  | notFound (detail : String)
  | conflict (detail : String)
  | badRequest (detail : String)
  | internalError (detail : String)
deriving DecidableEq, Repr

/-! ## Reference-table lookups (organisation.py, country.py, network.py,
deployment.py, devicetype.py, device.py) -/

/-- organisation.py organisation_exists: case-normalises then looks the name
up without a deleted filter; Conflict if found soft-deleted. -/
def organisation_exists (db : Db) (name : String) : Except ApiError Bool :=
  let name := pyUpper name
  match db.organisations.find? (fun o => decide (o.name = name)) with
  | some o =>
    if o.deleted then
      .error (.conflict ("Organisation " ++ name ++ " already exists but is deleted."))
    else .ok true
  | none => .ok false

/-- country.py country_exists. -/
def country_exists (db : Db) (code : String) : Except ApiError Bool :=
  let code := pyUpper code
  match db.countries.find? (fun c => decide (c.code = code)) with
  | some c =>
    if c.deleted then
      .error (.conflict ("Country " ++ code ++ " already exists but is deleted."))
    else .ok true
  | none => .ok false

/-- network.py get_network_by_name: matches name with upper-cased
organisation and country; Conflict if the match is soft-deleted. -/
def get_network_by_name (db : Db) (name organisation_name country_code : String) :
    Except ApiError (Option Network) :=
  let organisation_name := pyUpper organisation_name
  let country_code := pyUpper country_code
  match db.networks.find? (fun n =>
      decide (n.name = name) && decide (n.organisation_name = organisation_name) &&
        decide (n.country_code = country_code)) with
  | some n =>
    if n.deleted then
      .error (.conflict ("Network " ++ name ++ " already exists for " ++
        organisation_name ++ " in " ++ country_code ++ " but is deleted."))
    else .ok (some n)
  | none => .ok none

/-- network.py network_name_exists. -/
def network_name_exists (db : Db) (name organisation_name country_code : String) :
    Except ApiError Bool :=
  match get_network_by_name db name organisation_name country_code with
  | .error e => .error e
  | .ok (some _) => .ok true
  | .ok none => .ok false

/-- deployment.py deployment_name_exists (both the with- and
without-devicetype query forms). -/
def deployment_name_exists (db : Db) (name : String) (network_id : Nat)
    (devicetype_name : Option String) : Except ApiError Bool :=
  match devicetype_name with
  | some dt =>
    let dt := pyLower dt
    match db.deployments.find? (fun p =>
        decide (p.name = name) && decide (p.network_id = network_id) &&
          decide (p.devicetype_name = dt)) with
    | some p =>
      if p.deleted then
        .error (.conflict ("Deployment " ++ name ++ " already exists for " ++ dt ++
          " in network " ++ Nat.repr network_id ++ ". but is deleted."))
      else .ok true
    | none => .ok false
  | none =>
    let found := db.deployments.filter (fun p =>
      decide (p.name = name) && decide (p.network_id = network_id))
    if found.any (fun p => !p.deleted) then .ok true
    else if !found.isEmpty then
      .error (.conflict ("Deployment " ++ name ++ " already exists in network " ++
        Nat.repr network_id ++ " but is deleted."))
    else .ok false

/-- devicetype.py devicetype_exists. -/
def devicetype_exists (db : Db) (name : String) : Except ApiError Bool :=
  let name := pyLower name
  match db.devicetypes.find? (fun t => decide (t.name = name)) with
  | some t =>
    if t.deleted then
      .error (.conflict ("DeviceType " ++ name ++ " already exists but is deleted."))
    else .ok true
  | none => .ok false

/-- device.py device_exists. -/
def device_exists (db : Db) (id : String) : Except ApiError Bool :=
  match db.devices.find? (fun v => decide (v.id = id)) with
  | some v =>
    if v.deleted then
      .error (.conflict ("Device " ++ id ++ " already exists but is deleted."))
    else .ok true
  | none => .ok false

/-- deployment.py deployment_exists (lookup by id). -/
def deployment_exists (db : Db) (id : Nat) : Except ApiError Bool :=
  match db.deployments.find? (fun p => decide (p.id = id)) with
  | some p =>
    if p.deleted then
      .error (.conflict ("Deployment " ++ Nat.repr id ++ " already exists but is deleted."))
    else .ok true
  | none => .ok false

/-! ## Deployment-device assignment (deploymentdevice.py) -/

/-- Request body for creating/updating an assignment
(DeploymentDeviceBase: end_date is required here, unlike the table column). -/
structure DeploymentDeviceBase where
  device_id : String
  deployment_id : Nat
  start_date : CalDate
  end_date : CalDate
deriving DecidableEq, Repr

/-- The overlap filter of check_valid_deploymentdevice applied to a stored
row r and a request body b: `r.start_date < b.end_date AND
r.end_date >= b.start_date`, restricted to non-deleted rows of b's device.
A NULL stored end_date fails the SQL comparison and is not matched. -/
def overlapQ (r : DeploymentDevice) (b : DeploymentDeviceBase) : Bool :=
  decide (r.device_id = b.device_id) && !r.deleted &&
    CalDate.ltb r.start_date b.end_date &&
    (match r.end_date with
     | some e => CalDate.leb b.start_date e
     | none => false)

/-- deploymentdevice.py check_valid_deploymentdevice: foreign keys, date
order, then the overlap query above over all non-deleted rows of the
device (the row being updated, if any, is not excluded). -/
def check_valid_deploymentdevice (db : Db) (depdev : DeploymentDeviceBase) :
    Except ApiError Unit :=
  match deployment_exists db depdev.deployment_id with
  | .error e => .error e
  | .ok false =>
    .error (.notFound ("Deployment " ++ Nat.repr depdev.deployment_id ++ " not found."))
  | .ok true =>
    match device_exists db depdev.device_id with
    | .error e => .error e
    | .ok false => .error (.notFound ("Device " ++ depdev.device_id ++ " not found."))
    | .ok true =>
      if CalDate.ltb depdev.end_date depdev.start_date then
        .error (.badRequest "Start date must be before end date.")
      else
        match db.deploymentdevices.find? (fun r => overlapQ r depdev) with
        | some overlapping =>
          .error (.conflict ("Device " ++ depdev.device_id ++
            " already assigned to deployment " ++ Nat.repr overlapping.deployment_id ++
            " between " ++ dateStr overlapping.start_date ++ " and " ++
            optDateStr overlapping.end_date ++ "."))
        | none => .ok ()

/-- Autoincrement id for a new assignment row. -/
def nextDeploymentDeviceId (db : Db) : Nat :=
  (db.deploymentdevices.foldr (fun r m => max r.id m) 0) + 1

/-- The row inserted by create_deploymentdevice for a validated body. -/
def newAssignmentRow (db : Db) (body : DeploymentDeviceBase) : DeploymentDevice :=
  { id := nextDeploymentDeviceId db
    device_id := body.device_id
    deployment_id := body.deployment_id
    start_date := body.start_date
    end_date := some body.end_date
    deleted := false }

/-- deploymentdevice.py create_deploymentdevice. -/
def create_deploymentdevice (db : Db) (body : DeploymentDeviceBase) :
    Except ApiError (Db × DeploymentDevice) :=
  match check_valid_deploymentdevice db body with
  | .error e => .error e
  | .ok () =>
    let row := newAssignmentRow db body
    .ok ({ db with deploymentdevices := db.deploymentdevices ++ [row] }, row)

/-- deploymentdevice.py get_deploymentdevice_by_id. -/
def get_deploymentdevice_by_id (db : Db) (id : Nat) (deleted : Bool := false) :
    Except ApiError DeploymentDevice :=
  match db.deploymentdevices.find? (fun r =>
      decide (r.id = id) && decide (r.deleted = deleted)) with
  | some r => .ok r
  | none =>
    .error (.notFound ("No deploymentdevice found with id " ++ Nat.repr id ++ "."))

/-- Replace the first list element satisfying p by its image under f
(the SQLModel pattern of mutating the fetched row in place). -/
def setFirst (p : α → Bool) (f : α → α) : List α → List α
  | [] => []
  | x :: xs => if p x then f x :: xs else x :: setFirst p f xs

/-- deploymentdevice.py update_deploymentdevice: validates the body with
check_valid_deploymentdevice (which also scans the row being updated),
fetches the row by id and overwrites its body fields. -/
def update_deploymentdevice (db : Db) (id : Nat) (body : DeploymentDeviceBase) :
    Except ApiError (Db × DeploymentDevice) :=
  match check_valid_deploymentdevice db body with
  | .error e => .error e
  | .ok () =>
    match get_deploymentdevice_by_id db id with
    | .error e => .error e
    | .ok current =>
      let revised := { current with
        device_id := body.device_id
        deployment_id := body.deployment_id
        start_date := body.start_date
        end_date := some body.end_date }
      let rows := setFirst (fun r => decide (r.id = id) && !r.deleted)
        (fun _ => revised) db.deploymentdevices
      .ok ({ db with deploymentdevices := rows }, revised)

/-! ## File routes (file.py) -/

/-- A stored assignment row covers device_id on day d: non-deleted, right
device, start_date ≤ d and (end_date is NULL or d ≤ end_date). -/
def assignmentCovers (r : DeploymentDevice) (device_id : String) (d : CalDate) : Bool :=
  decide (r.device_id = device_id) && !r.deleted && CalDate.leb r.start_date d &&
    (match r.end_date with
     | some e => CalDate.leb d e
     | none => true)

/-- Modelled from the spec: get_deployment_by_device_and_date is imported
by file.py from app.api.routes.deploymentdevice but its definition is
absent from the source tree. Spec 4.1 (resolve_deployment): find the
non-deleted assignment row for device_id whose date range contains the
date; fail with NotFound when no assignment matches. -/
def get_deployment_by_device_and_date (db : Db) (device_id : String) (d : CalDate) :
    Except ApiError DeploymentDevice :=
  match db.deploymentdevices.find? (fun r => assignmentCovers r device_id d) with
  | some r => .ok r
  | none =>
    .error (.notFound ("Device " ++ device_id ++ " is not deployed on the given date."))

/-- The metadata tuple (organisation, network, deployment, device,
devicetype) returned by file.py get_metadata. -/
structure Metadata where
  organisation : Organisation
  network : Network
  deployment : Deployment
  device : Device
  devicetype : DeviceType
deriving DecidableEq, Repr

/-- file.py get_metadata. The two joined SELECTs unpack their first()
result before any None check, so an empty result escapes as an unhandled
TypeError; the deployment row is reached through the assignment resolved
by get_deployment_by_device_and_date, and organisation/network follow its
foreign keys. -/
def get_metadata (db : Db) (device_id : String) (d : CalDate) :
    Except ApiError Metadata :=
  match db.devices.find? (fun v => decide (v.id = device_id) && !v.deleted) with
  | none => .error (.internalError "TypeError: cannot unpack non-iterable NoneType object")
  | some device =>
    match db.devicetypes.find? (fun t => decide (t.name = device.devicetype_name)) with
    | none => .error (.internalError "TypeError: cannot unpack non-iterable NoneType object")
    | some devicetype =>
      match get_deployment_by_device_and_date db device_id d with
      | .error e => .error e
      | .ok depdev =>
        match db.deployments.find? (fun p => decide (p.id = depdev.deployment_id)) with
        | none => .error (.internalError "TypeError: cannot unpack non-iterable NoneType object")
        | some deployment =>
          match db.networks.find? (fun n => decide (n.id = deployment.network_id)) with
          | none => .error (.internalError "TypeError: cannot unpack non-iterable NoneType object")
          | some network =>
            match db.organisations.find? (fun o =>
                decide (o.name = network.organisation_name)) with
            | none => .error (.internalError "TypeError: cannot unpack non-iterable NoneType object")
            | some organisation => .ok ⟨organisation, network, deployment, device, devicetype⟩

/-- file.py get_prefix: the storage key under which upload_files stores a
batch, derived from resolved metadata; month and day are zero-padded. -/
def get_prefix (md : Metadata) (d : CalDate) : String :=
  md.organisation.name ++ "/" ++ md.network.country_code ++ "/" ++ md.network.name ++
    "/" ++ md.deployment.name ++ "/" ++ md.device.devicetype_name ++ "/" ++
    Nat.repr d.year ++ "/" ++ pad2 d.month ++ "/" ++ pad2 d.day

/-- An uploaded file: its client-supplied filename and whether the
object-store transfer for it succeeds (the external S3 outcome). -/
structure UFile where
  filename : String
  transferOk : Bool
deriving DecidableEq, Repr

/-- Key fields of the create_inference lookup: right device, right session
date, not deleted. -/
def inferenceKeyMatch (device_id : String) (session_date : CalDate) (r : Inference) : Bool :=
  decide (r.device_id = device_id) && decide (r.session_date = session_date) && !r.deleted

/-- Clear the completed flag of a ledger row. -/
def markIncomplete (r : Inference) : Inference := { r with completed := false }

/-- Autoincrement id for a new ledger row. -/
def nextInferenceId (db : Db) : Nat :=
  (db.inferences.foldr (fun r m => max r.id m) 0) + 1

/-- The fresh ledger row inserted by create_inference. -/
def newInferenceRow (db : Db) (device_id : String) (deployment_id : Nat)
    (session_date : CalDate) : Inference :=
  { id := nextInferenceId db
    device_id := device_id
    deployment_id := deployment_id
    session_date := session_date
    task_arn := none
    completed := false
    deleted := false }

/-- file.py create_inference: look up the non-deleted ledger row for
(device_id, session_date); absent → insert a new incomplete row; present
and completed → clear the flag; present and incomplete → no change. -/
def create_inference (db : Db) (device_id : String) (deployment_id : Nat)
    (session_date : CalDate) : Db :=
  match db.inferences.find? (inferenceKeyMatch device_id session_date) with
  | some inference =>
    if inference.completed then
      { db with inferences :=
          setFirst (inferenceKeyMatch device_id session_date) markIncomplete db.inferences }
    else db
  | none =>
    { db with inferences :=
        db.inferences ++ [newInferenceRow db device_id deployment_id session_date] }

/-- file.py upload_files. Transfers run via asyncio.gather: any failing
transfer raises and is wrapped in a 400; afterwards the session date is
computed from the first file's name (crashing with IndexError on an empty
batch) and create_inference records the ledger entry. The ledger write
(db.commit inside create_inference) can itself fail; neither
create_inference nor upload_files guards it, so that failure escapes
unhandled — ledgerCommitOk models the commit outcome. -/
def upload_files (db : Db) (device_id : String) (d : CalDate) (files : List UFile)
    (ledgerCommitOk : Bool) : Except ApiError (Db × String) :=
  match get_metadata db device_id d with
  | .error e => .error e
  | .ok metadata =>
    let pfx := get_prefix metadata d
    match files.find? (fun f => !f.transferOk) with
    | some f =>
      .error (.badRequest ("Failed to upload files: 400: Error uploading " ++
        pfx ++ "/" ++ f.filename ++ ": transfer error"))
    | none =>
      let deployment := metadata.deployment
      let deployment_id := deployment.id
      let devicetype := metadata.devicetype
      let night_session := devicetype.night_session
      match files with
      | [] => .error (.internalError "IndexError: list index out of range")
      | f0 :: _ =>
        let filetime := pyHeadSplitDot f0.filename
        let session_date :=
          if night_session && pyStrLt filetime "120000" then CalDate.predDay d else d
        if ledgerCommitOk then
          .ok (create_inference db device_id deployment_id session_date,
            "All files uploaded successfully")
        else
          .error (.internalError "ledger write failed")

/-- The store state a caller of upload_files observes afterwards: the
updated state on success, the unchanged one when the request errors. -/
def uploadResultDb (db : Db) (device_id : String) (d : CalDate) (files : List UFile)
    (ledgerCommitOk : Bool) : Db :=
  match upload_files db device_id d files ledgerCommitOk with
  | .ok (db2, _) => db2
  | .error _ => db

/-- file.py validate_prefix: validate caller-supplied hierarchy segments
left to right, returning the prefix built so far as soon as a segment is
absent (Python falsiness: None, empty string or 0). The year bound reads
the current date, passed here as today. -/
def validate_prefix (db : Db)
    (organisation country network deployment devicetype : Option String)
    (year month day : Option Nat) (today : CalDate) : Except ApiError String :=
  match organisation with
  | none => .ok ""
  | some org =>
  if org = "" then .ok "" else
  match organisation_exists db org with
  | .error e => .error e
  | .ok false => .error (.notFound ("Organisation " ++ org ++ " does not exist."))
  | .ok true =>
  let pfx := pyUpper org
  match country with
  | none => .ok pfx
  | some ctry =>
  if ctry = "" then .ok pfx else
  match country_exists db ctry with
  | .error e => .error e
  | .ok false => .error (.notFound ("Country " ++ ctry ++ " does not exist."))
  | .ok true =>
  let pfx := pfx ++ "/" ++ pyUpper ctry
  match network with
  | none => .ok pfx
  | some net =>
  if net = "" then .ok pfx else
  match network_name_exists db net org ctry with
  | .error e => .error e
  | .ok false =>
    .error (.notFound ("Network " ++ net ++ " does not exist for " ++ org ++
      " in " ++ ctry ++ "."))
  | .ok true =>
  let pfx := pfx ++ "/" ++ net
  match deployment with
  | none => .ok pfx
  | some dep =>
  if dep = "" then .ok pfx else
  match get_network_by_name db net org ctry with
  | .error e => .error e
  | .ok none =>
    .error (.internalError "AttributeError: NoneType object has no attribute id")
  | .ok (some nrow) =>
  match deployment_name_exists db dep nrow.id none with
  | .error e => .error e
  | .ok false =>
    .error (.notFound ("Deployment " ++ dep ++ " does not exist for " ++ net ++ "."))
  | .ok true =>
  let pfx := pfx ++ "/" ++ dep
  match devicetype with
  | none => .ok pfx
  | some dt =>
  if dt = "" then .ok pfx else
  match devicetype_exists db dt with
  | .error e => .error e
  | .ok false => .error (.notFound ("DeviceType " ++ dt ++ " does not exist."))
  | .ok true =>
  let pfx := pfx ++ "/" ++ pyLower dt
  match year with
  | none => .ok pfx
  | some y =>
  if y = 0 then .ok pfx else
  if y < 2000 ∨ today.year < y then
    .error (.badRequest ("Year " ++ Nat.repr y ++ " is not a valid integer."))
  else
  let pfx := pfx ++ "/" ++ Nat.repr y
  match month with
  | none => .ok pfx
  | some m =>
  if m = 0 then .ok pfx else
  if m < 1 ∨ 12 < m then
    .error (.badRequest ("Month " ++ Nat.repr m ++ " is not a valid integer."))
  else
  let pfx := pfx ++ "/" ++ Nat.repr m
  match day with
  | none => .ok pfx
  | some dy =>
  if dy = 0 then .ok pfx else
  if isValidDate y m dy then .ok (pfx ++ "/" ++ Nat.repr dy)
  else
    .error (.badRequest (Nat.repr y ++ "-" ++ Nat.repr m ++ "-" ++ Nat.repr dy ++
      " is not a valid date."))

/-- The storage key prefix upload_files would store under for this device
and date, when the metadata resolves. -/
def uploadStoredKey (db : Db) (device_id : String) (d : CalDate) : Option String :=
  match get_metadata db device_id d with
  | .ok md => some ( get_prefix md d)
  | .error _ => none

/-- Session dates of the non-deleted ledger rows of a device, in table order. -/
def inferredDates (db : Db) (device_id : String) : List CalDate :=
  (db.inferences.filter (fun r => decide (r.device_id = device_id) && !r.deleted)).map
    (fun r => r.session_date)

/-! ## Concrete fixtures used by witnesses and counterexamples -/

/-- Assignment row of the happy-path fixture: dev1 deployed on dep1 from
2024-02-01 to 2024-12-31. -/
def rowHier : DeploymentDevice :=
  ⟨1, "dev1", 1, ⟨2024, 2, 1⟩, some ⟨2024, 12, 31⟩, false⟩

/-- A fully populated single-chain hierarchy: organisation UKCEH, country
GB, network net1, deployment dep1 of devicetype moth (night_session),
device dev1 deployed on dep1 over spring 2024; empty ledger. -/
def dbHier : Db :=
  { organisations := [⟨"UKCEH", "UK Centre for Ecology and Hydrology", false⟩]
    countries := [⟨"GB", "United Kingdom", false⟩]
    networks := [⟨1, "UKCEH", "GB", "net1", false⟩]
    deployments := [⟨1, 1, "moth", "dep1", true, false⟩]
    devices := [⟨"dev1", none, "moth", "1.0", none, false⟩]
    devicetypes := [⟨"moth", "A moth trap", true, false⟩]
    deploymentdevices := [rowHier]
    inferences := [] }

/-- Assignment row of the January fixture: dev1 on dep1 for
[2024-01-10, 2024-01-20]. -/
def rowJan : DeploymentDevice :=
  ⟨1, "dev1", 1, ⟨2024, 1, 10⟩, some ⟨2024, 1, 20⟩, false⟩

/-- The same hierarchy with a single assignment [2024-01-10, 2024-01-20]. -/
def dbJan : Db :=
  { dbHier with deploymentdevices := [rowJan] }

/-! ## List helper lemmas -/

theorem find?_eq_some_of_unique {p : α → Bool} {l : List α} {x : α}
    (hx : x ∈ l) (hpx : p x = true) (huniq : ∀ y ∈ l, p y = true → y = x) :
    l.find? p = some x := by
  induction l with
  | nil => cases hx
  | cons a t ih =>
    by_cases hpa : p a = true
    · have : a = x := huniq a (List.mem_cons_self a t) hpa
      simp [List.find?, hpa, this, hpx]
    · have hpa' : p a = false := by
        cases h : p a
        · rfl
        · exact absurd h hpa
      have hxt : x ∈ t := by
        rcases List.mem_cons.mp hx with h | h
        · exact absurd (h ▸ hpx) hpa
        · exact h
      simp [List.find?, hpa']
      exact ih hxt (fun y hy hpy => huniq y (List.mem_cons_of_mem a hy) hpy)

theorem find?_decomp {p : α → Bool} {l : List α} {x : α}
    (h : l.find? p = some x) :
    ∃ l1 l2, l = l1 ++ x :: l2 ∧ (∀ y ∈ l1, p y = false) ∧ p x = true := by
  induction l with
  | nil => simp [List.find?] at h
  | cons a t ih =>
    cases hpa : p a with
    | true =>
      have hax : a = x := by
        have hsome : some a = some x := by simpa [List.find?, hpa] using h
        injection hsome
      subst hax
      exact ⟨[], t, by simp, ⟨(by intro y hy; cases hy), hpa⟩⟩
    | false =>
      have ht : t.find? p = some x := by simpa [List.find?, hpa] using h
      obtain ⟨l1, l2, heq, hall, hpx⟩ := ih ht
      refine ⟨a :: l1, l2, by simp [heq], ?_, hpx⟩
      intro y hy
      rcases List.mem_cons.mp hy with h | h
      · exact h ▸ hpa
      · exact hall y h

theorem setFirst_eq_append {p : α → Bool} {f : α → α} (l1 : List α) (x : α) (l2 : List α)
    (h1 : ∀ y ∈ l1, p y = false) (hx : p x = true) :
    setFirst p f (l1 ++ x :: l2) = l1 ++ f x :: l2 := by
  induction l1 with
  | nil => simp [setFirst, hx]
  | cons a t ih =>
    have ha : p a = false := h1 a (List.mem_cons_self a t)
    simp [setFirst, ha]
    exact ih (fun y hy => h1 y (List.mem_cons_of_mem a hy))

theorem filter_eq_nil_of_all_false {p : α → Bool} {l : List α}
    (h : ∀ y ∈ l, p y = false) : l.filter p = [] := by
  induction l with
  | nil => rfl
  | cons a t ih =>
    have ha : p a = false := h a (List.mem_cons_self a t)
    have ht := ih (fun y hy => h y (List.mem_cons_of_mem a hy))
    simp [List.filter, ha, ht]

/-! ## C1: temporal deployment resolution -/

/-- C1: for every device id and date, the deployment resolution step used
by the upload orchestrator returns the unique non-deleted assignment row
whose range contains the date, and fails with NotFound when no assignment
covers the date. -/
theorem c1_resolve_deployment (db : Db) (dev : String) (d : CalDate) :
    ((∀ r ∈ db.deploymentdevices, assignmentCovers r dev d = false) →
      get_deployment_by_device_and_date db dev d =
        .error (.notFound ("Device " ++ dev ++ " is not deployed on the given date.")))
    ∧ (∀ row ∈ db.deploymentdevices, assignmentCovers row dev d = true →
        (∀ r ∈ db.deploymentdevices, assignmentCovers r dev d = true → r = row) →
        get_deployment_by_device_and_date db dev d = .ok row) := by
  constructor
  · intro hnone
    have hfind : db.deploymentdevices.find? (fun r => assignmentCovers r dev d) = none := by
      apply List.find?_eq_none.mpr
      intro x hx
      simp [hnone x hx]
    simp [get_deployment_by_device_and_date, hfind]
  · intro row hrow hcov huniq
    have hfind : db.deploymentdevices.find? (fun r => assignmentCovers r dev d) = some row :=
      find?_eq_some_of_unique hrow hcov huniq
    simp [get_deployment_by_device_and_date, hfind]

/-- C1 witness: on the concrete fixture, dev1 resolves to its assignment
row on 2024-03-02 and an unknown device fails with NotFound. -/
theorem c1_resolve_deployment_witness :
    get_deployment_by_device_and_date dbHier "dev1" ⟨2024, 3, 2⟩ = .ok rowHier ∧
    get_deployment_by_device_and_date dbHier "dev9" ⟨2024, 3, 2⟩ =
      .error (.notFound "Device dev9 is not deployed on the given date.") :=
  ⟨(c1_resolve_deployment dbHier "dev1" ⟨2024, 3, 2⟩).2 rowHier (by decide) (by decide)
      (by decide),
    (c1_resolve_deployment dbHier "dev9" ⟨2024, 3, 2⟩).1 (by decide)⟩

/-! ## C2 and C9: the overlap check -/

/-- Did the call succeed (no HTTPException)? -/
def apiOk : Except ApiError α → Bool
  | .ok _ => true
  | .error _ => false

/-- The store state after create_deploymentdevice (unchanged on error). -/
def createdDb (db : Db) (body : DeploymentDeviceBase) : Db :=
  match create_deploymentdevice db body with
  | .ok (db2, _) => db2
  | .error _ => db

/-- The overlap query of check_valid_deploymentdevice read as a relation
between two stored rows: the earlier row a is scanned with the later row
b's dates as the request body. -/
def rowOverlapQ (a b : DeploymentDevice) : Bool :=
  decide (a.device_id = b.device_id) && !a.deleted && !b.deleted &&
    (match b.end_date with
     | some be => CalDate.ltb a.start_date be
     | none => false) &&
    (match a.end_date with
     | some ae => CalDate.leb b.start_date ae
     | none => false)

/-- Two closed-or-open assignment ranges of one device share a calendar
day (the symmetric invariant stated by the claim). -/
def sharedDayB (a b : DeploymentDevice) : Bool :=
  decide (a.device_id = b.device_id) && !a.deleted && !b.deleted &&
    (match b.end_date with
     | some be => CalDate.leb a.start_date be
     | none => true) &&
    (match a.end_date with
     | some ae => CalDate.leb b.start_date ae
     | none => true)

/-- Boolean pairwise check over a list. -/
def pairwiseB (p : α → α → Bool) : List α → Bool
  | [] => true
  | x :: xs => xs.all (fun y => p x y) && pairwiseB p xs

/-- The invariant asserted by the claim: no two non-deleted assignment
rows of one device share any calendar day. -/
def claimedNoSharedDay (db : Db) : Bool :=
  pairwiseB (fun a b => !sharedDayB a b) db.deploymentdevices

theorem rowOverlapQ_newRow (a : DeploymentDevice) (db : Db) (body : DeploymentDeviceBase) :
    rowOverlapQ a (newAssignmentRow db body) = overlapQ a body := by
  simp [rowOverlapQ, overlapQ, newAssignmentRow]

theorem check_ok_no_overlap {db : Db} {body : DeploymentDeviceBase}
    (h : check_valid_deploymentdevice db body = .ok ()) :
    db.deploymentdevices.find? (fun r => overlapQ r body) = none := by
  unfold check_valid_deploymentdevice at h
  rcases h1 : deployment_exists db body.deployment_id with e | b1
  · rw [h1] at h; cases h
  · rw [h1] at h
    cases b1
    · cases h
    · rcases h2 : device_exists db body.device_id with e | b2
      · rw [h2] at h; cases h
      · rw [h2] at h
        cases b2
        · cases h
        · cases h3 : CalDate.ltb body.end_date body.start_date
          · rw [h3] at h
            simp only [Bool.false_eq_true, if_false] at h
            rcases h4 : db.deploymentdevices.find? (fun r => overlapQ r body) with _ | r
            · rfl
            · rw [h4] at h; cases h
          · rw [h3] at h
            simp only [if_true] at h
            cases h

theorem create_ok_decomp {db : Db} {body : DeploymentDeviceBase} {db2 : Db}
    {row : DeploymentDevice}
    (h : create_deploymentdevice db body = .ok (db2, row)) :
    check_valid_deploymentdevice db body = .ok () ∧
      row = newAssignmentRow db body ∧
      db2.deploymentdevices = db.deploymentdevices ++ [newAssignmentRow db body] := by
  unfold create_deploymentdevice at h
  rcases hc : check_valid_deploymentdevice db body with e | u
  · rw [hc] at h; cases h
  · cases u
    rw [hc] at h
    simp only [Except.ok.injEq, Prod.mk.injEq] at h
    exact ⟨rfl, h.2.symm, by rw [← h.1]⟩

/-- C2 counterexample: dbJan holds the single assignment
[2024-01-10, 2024-01-20] for dev1 (so the claimed shared-day invariant
holds), yet inserting [2024-01-05, 2024-01-10] for the same device — whose
closed range shares the endpoint day 2024-01-10 with the existing row — is
accepted, and the resulting table violates the claimed invariant. -/
theorem c2_counterexample :
    claimedNoSharedDay dbJan = true
    ∧ apiOk (create_deploymentdevice dbJan ⟨"dev1", 1, ⟨2024, 1, 5⟩, ⟨2024, 1, 10⟩⟩) = true
    ∧ claimedNoSharedDay (createdDb dbJan ⟨"dev1", 1, ⟨2024, 1, 5⟩, ⟨2024, 1, 10⟩⟩) = false := by
  refine ⟨rfl, rfl, rfl⟩

/-- C2 amended: a successful create_deploymentdevice rejects exactly the
rows matched by the query `existing.start < new.end AND existing.end >=
new.start` (so a new range ending on an existing row's start day passes),
and it preserves the corresponding insertion-ordered non-overlap
invariant; [2024-01-15, 2024-01-25] after [2024-01-10, 2024-01-20] is
rejected with Conflict while the disjoint [2024-01-21, 2024-01-25] is
accepted. -/
theorem c2_create_preserves_query_non_overlap :
    (∀ (db : Db) (body : DeploymentDeviceBase) (db2 : Db) (row : DeploymentDevice),
      List.Pairwise (fun a b => rowOverlapQ a b = false) db.deploymentdevices →
      create_deploymentdevice db body = .ok (db2, row) →
      (∀ r ∈ db.deploymentdevices, overlapQ r body = false) ∧
        List.Pairwise (fun a b => rowOverlapQ a b = false) db2.deploymentdevices)
    ∧ create_deploymentdevice dbJan ⟨"dev1", 1, ⟨2024, 1, 15⟩, ⟨2024, 1, 25⟩⟩ =
        .error (.conflict
          "Device dev1 already assigned to deployment 1 between 2024-01-10 and 2024-01-20.")
    ∧ apiOk (create_deploymentdevice dbJan ⟨"dev1", 1, ⟨2024, 1, 21⟩, ⟨2024, 1, 25⟩⟩) = true := by
  refine ⟨?_, rfl, rfl⟩
  intro db body db2 row hinv hok
  obtain ⟨hcheck, _, hrows⟩ := create_ok_decomp hok
  have hfind := check_ok_no_overlap hcheck
  have hnone : ∀ r ∈ db.deploymentdevices, overlapQ r body = false := by
    intro r hr
    have := List.find?_eq_none.mp hfind r hr
    simpa using this
  refine ⟨hnone, ?_⟩
  rw [hrows]
  rw [List.pairwise_append]
  refine ⟨hinv, List.pairwise_singleton _ _, ?_⟩
  intro a ha b hb
  have hb' : b = newAssignmentRow db body := by simpa using hb
  rw [hb', rowOverlapQ_newRow]
  exact hnone a ha

/-- C2 amended witness: the preservation part applied to the January
fixture and the disjoint insert [2024-01-21, 2024-01-25], evaluated at the
existing row. -/
theorem c2_create_preserves_witness :
    overlapQ rowJan ⟨"dev1", 1, ⟨2024, 1, 21⟩, ⟨2024, 1, 25⟩⟩ = false :=
  (c2_create_preserves_query_non_overlap.1 dbJan ⟨"dev1", 1, ⟨2024, 1, 21⟩, ⟨2024, 1, 25⟩⟩
    (createdDb dbJan ⟨"dev1", 1, ⟨2024, 1, 21⟩, ⟨2024, 1, 25⟩⟩)
    (newAssignmentRow dbJan ⟨"dev1", 1, ⟨2024, 1, 21⟩, ⟨2024, 1, 25⟩⟩)
    (by decide) (by rfl)).1 rowJan (by decide)

/-- C9: update_deploymentdevice re-validates the body with
check_valid_deploymentdevice, whose overlap query does not exclude the row
being updated — so resubmitting a row's own date range conflicts with
itself, contradicting the claimed (and clearly intended) behaviour. -/
theorem c9_update_conflicts_with_own_row :
    update_deploymentdevice dbJan 1 ⟨"dev1", 1, ⟨2024, 1, 10⟩, ⟨2024, 1, 20⟩⟩ =
      .error (.conflict
        "Device dev1 already assigned to deployment 1 between 2024-01-10 and 2024-01-20.") :=
  rfl

/-! ## C5: inference ledger idempotence and reopen law -/

theorem find?_append_none {p : α → Bool} {l1 : List α} (l2 : List α)
    (h : l1.find? p = none) : (l1 ++ l2).find? p = l2.find? p := by
  simp [List.find?_append, h]

theorem keyMatch_markIncomplete (dev : String) (sdate : CalDate) (r : Inference) :
    inferenceKeyMatch dev sdate (markIncomplete r) = inferenceKeyMatch dev sdate r := rfl

theorem markIncomplete_completed (r : Inference) : (markIncomplete r).completed = false := rfl

theorem newInferenceRow_completed (db : Db) (dev : String) (depId : Nat) (sdate : CalDate) :
    (newInferenceRow db dev depId sdate).completed = false := rfl

/-- When the looked-up ledger row is already incomplete, create_inference
is the identity on the store. -/
theorem create_inference_noop {db : Db} {dev : String} {depId : Nat} {sdate : CalDate}
    {inf : Inference} (h : db.inferences.find? (inferenceKeyMatch dev sdate) = some inf)
    (hc : inf.completed = false) :
    create_inference db dev depId sdate = db := by
  unfold create_inference
  rw [h]
  simp [hc]

/-- C5: under the ledger key invariant (at most one non-deleted row per
(device, session date)), create_inference leaves exactly one non-deleted
incomplete row for the pair, a second immediate call changes nothing, and
every surviving row for the pair — in particular a previously completed
one — ends up with completed = false. -/
theorem c5_create_inference_ledger (db : Db) (dev : String) (depId : Nat) (sdate : CalDate)
    (huniq : (db.inferences.filter (inferenceKeyMatch dev sdate)).length ≤ 1) :
    ((create_inference db dev depId sdate).inferences.filter
        (fun r => inferenceKeyMatch dev sdate r && !r.completed)).length = 1
    ∧ create_inference (create_inference db dev depId sdate) dev depId sdate =
        create_inference db dev depId sdate
    ∧ ∀ r ∈ (create_inference db dev depId sdate).inferences,
        inferenceKeyMatch dev sdate r = true → r.completed = false := by
  rcases hf : db.inferences.find? (inferenceKeyMatch dev sdate) with _ | inf
  · -- no existing row: a fresh incomplete row is appended
    have hall : ∀ y ∈ db.inferences, inferenceKeyMatch dev sdate y = false := by
      intro y hy
      simpa using List.find?_eq_none.mp hf y hy
    have hkeynew : inferenceKeyMatch dev sdate (newInferenceRow db dev depId sdate) = true := by
      simp [inferenceKeyMatch, newInferenceRow]
    have hcre : create_inference db dev depId sdate =
        { db with inferences := db.inferences ++ [newInferenceRow db dev depId sdate] } := by
      simp [create_inference, hf]
    refine ⟨?_, ?_, ?_⟩
    · rw [hcre]
      have h1 : db.inferences.filter
          (fun r => inferenceKeyMatch dev sdate r && !r.completed) = [] :=
        filter_eq_nil_of_all_false (fun y hy => by simp [hall y hy])
      show ((db.inferences ++ [newInferenceRow db dev depId sdate]).filter
        (fun r => inferenceKeyMatch dev sdate r && !r.completed)).length = 1
      rw [List.filter_append, h1]
      simp [List.filter, hkeynew, newInferenceRow_completed]
    · rw [hcre]
      have hfind2 : (db.inferences ++ [newInferenceRow db dev depId sdate]).find?
          (inferenceKeyMatch dev sdate) = some (newInferenceRow db dev depId sdate) := by
        rw [find?_append_none _ hf]
        simp [List.find?, hkeynew]
      exact create_inference_noop hfind2 (newInferenceRow_completed db dev depId sdate)
    · intro r hr hkey
      rw [hcre] at hr
      have hr' : r ∈ db.inferences ++ [newInferenceRow db dev depId sdate] := hr
      rcases List.mem_append.mp hr' with h | h
      · exact absurd hkey (by simp [hall r h])
      · have : r = newInferenceRow db dev depId sdate := by simpa using h
        rw [this]
        rfl
  · -- an existing row: reopened if completed, untouched otherwise
    obtain ⟨l1, l2, hsplit, hl1, hkinf⟩ := find?_decomp hf
    have hfa : db.inferences.filter (inferenceKeyMatch dev sdate) =
        inf :: l2.filter (inferenceKeyMatch dev sdate) := by
      rw [hsplit, List.filter_append, filter_eq_nil_of_all_false hl1]
      simp [List.filter, hkinf]
    have hl2 : ∀ y ∈ l2, inferenceKeyMatch dev sdate y = false := by
      intro y hy
      cases hky : inferenceKeyMatch dev sdate y
      · rfl
      · exfalso
        have hmem : y ∈ l2.filter (inferenceKeyMatch dev sdate) :=
          List.mem_filter.mpr ⟨hy, hky⟩
        have hnil : l2.filter (inferenceKeyMatch dev sdate) = [] := by
          rw [hfa] at huniq
          simp only [List.length_cons] at huniq
          exact List.length_eq_zero.mp (Nat.le_zero.mp (Nat.le_of_succ_le_succ huniq))
        rw [hnil] at hmem
        cases hmem
    cases hc : inf.completed
    · -- already incomplete: a pure no-op
      have hcre : create_inference db dev depId sdate = db := by
        simp [create_inference, hf, hc]
      rw [hcre]
      refine ⟨?_, hcre, ?_⟩
      · rw [hsplit, List.filter_append]
        have h1 : l1.filter (fun r => inferenceKeyMatch dev sdate r && !r.completed) = [] :=
          filter_eq_nil_of_all_false (fun y hy => by simp [hl1 y hy])
        have h2 : l2.filter (fun r => inferenceKeyMatch dev sdate r && !r.completed) = [] :=
          filter_eq_nil_of_all_false (fun y hy => by simp [hl2 y hy])
        rw [h1]
        simp [List.filter, hkinf, hc, h2]
      · intro r hr hkey
        rw [hsplit] at hr
        rcases List.mem_append.mp hr with h | h
        · exact absurd hkey (by simp [hl1 r h])
        · rcases List.mem_cons.mp h with h | h
          · rw [h]; exact hc
          · exact absurd hkey (by simp [hl2 r h])
    · -- completed: flipped back in place
      have hset : setFirst (inferenceKeyMatch dev sdate) markIncomplete db.inferences =
          l1 ++ markIncomplete inf :: l2 := by
        rw [hsplit]
        exact setFirst_eq_append l1 inf l2 hl1 hkinf
      have hcre : create_inference db dev depId sdate =
          { db with inferences := l1 ++ markIncomplete inf :: l2 } := by
        simp [create_inference, hf, hc, hset]
      have hkmi : inferenceKeyMatch dev sdate (markIncomplete inf) = true := hkinf
      refine ⟨?_, ?_, ?_⟩
      · rw [hcre]
        show ((l1 ++ markIncomplete inf :: l2).filter
          (fun r => inferenceKeyMatch dev sdate r && !r.completed)).length = 1
        rw [List.filter_append]
        have h1 : l1.filter (fun r => inferenceKeyMatch dev sdate r && !r.completed) = [] :=
          filter_eq_nil_of_all_false (fun y hy => by simp [hl1 y hy])
        have h2 : l2.filter (fun r => inferenceKeyMatch dev sdate r && !r.completed) = [] :=
          filter_eq_nil_of_all_false (fun y hy => by simp [hl2 y hy])
        rw [h1]
        simp [List.filter, hkmi, markIncomplete_completed, h2]
      · rw [hcre]
        have hfind2 : (l1 ++ markIncomplete inf :: l2).find?
            (inferenceKeyMatch dev sdate) = some (markIncomplete inf) := by
          rw [find?_append_none _ (List.find?_eq_none.mpr
            (fun y hy => by simp [hl1 y hy]))]
          simp [List.find?, hkmi]
        exact create_inference_noop hfind2 (markIncomplete_completed inf)
      · intro r hr hkey
        rw [hcre] at hr
        have hr' : r ∈ l1 ++ markIncomplete inf :: l2 := hr
        rcases List.mem_append.mp hr' with h | h
        · exact absurd hkey (by simp [hl1 r h])
        · rcases List.mem_cons.mp h with h | h
          · rw [h]; rfl
          · exact absurd hkey (by simp [hl2 r h])

/-- C5 witness: on the fixture with an empty ledger, one call creates the
single incomplete row for (dev1, 2024-03-01) and a second call is the
identity. -/
theorem c5_create_inference_ledger_witness :
    ((create_inference dbHier "dev1" 1 ⟨2024, 3, 1⟩).inferences.filter
        (fun r => inferenceKeyMatch "dev1" ⟨2024, 3, 1⟩ r && !r.completed)).length = 1
    ∧ create_inference (create_inference dbHier "dev1" 1 ⟨2024, 3, 1⟩) "dev1" 1 ⟨2024, 3, 1⟩ =
        create_inference dbHier "dev1" 1 ⟨2024, 3, 1⟩ := by
  have h := c5_create_inference_ledger dbHier "dev1" 1 ⟨2024, 3, 1⟩ (by decide)
  exact ⟨h.1, h.2.1⟩

/-! ## C6, C7, C8, C10: the upload orchestrator -/

/-- The metadata dbHier resolves for dev1 on any covered date. -/
def mdHier : Metadata :=
  ⟨⟨"UKCEH", "UK Centre for Ecology and Hydrology", false⟩,
    ⟨1, "UKCEH", "GB", "net1", false⟩,
    ⟨1, 1, "moth", "dep1", true, false⟩,
    ⟨"dev1", none, "moth", "1.0", none, false⟩,
    ⟨"moth", "A moth trap", true, false⟩⟩

/-- The session dates recorded for a device by an upload, when it succeeds. -/
def uploadSessionDates (db : Db) (dev : String) (d : CalDate) (files : List UFile)
    (ledgerCommitOk : Bool) : Option (List CalDate) :=
  match upload_files db dev d files ledgerCommitOk with
  | .ok (db2, _) => some (inferredDates db2 dev)
  | .error _ => none

theorem upload_files_success {db : Db} {dev : String} {d : CalDate} {f0 : UFile}
    {rest : List UFile} {md : Metadata}
    (hmeta : get_metadata db dev d = .ok md)
    (hok : ∀ f ∈ f0 :: rest, f.transferOk = true) :
    upload_files db dev d (f0 :: rest) true =
      .ok (create_inference db dev md.deployment.id
          (if md.devicetype.night_session && pyStrLt (pyHeadSplitDot f0.filename) "120000"
            then CalDate.predDay d else d),
        "All files uploaded successfully") := by
  have hfind : (f0 :: rest).find? (fun f => !f.transferOk) = none :=
    List.find?_eq_none.mpr (fun f hf => by simp [hok f hf])
  simp [upload_files, hmeta, hfind]

theorem inferredDates_create_of_empty (db : Db) (dev : String) (depId : Nat)
    (sdate : CalDate) (h : db.inferences = []) :
    inferredDates (create_inference db dev depId sdate) dev = [sdate] := by
  unfold create_inference
  rw [h]
  simp [inferredDates, newInferenceRow, List.filter]

/-- C6: for a non-empty batch the session date is taken from the first
file's HHMMSS stamp — previous day when the devicetype is night_session
and the stamp is strictly below "120000", the upload date otherwise — and
this single date is the one recorded for the whole batch; concretely,
"053000.jpg" on 2024-03-02 is recorded under 2024-03-01 and "140000.jpg"
under 2024-03-02. -/
theorem c6_session_date :
    (∀ (db : Db) (dev : String) (d : CalDate) (f0 : UFile) (rest : List UFile)
        (md : Metadata),
      get_metadata db dev d = .ok md →
      (∀ f ∈ f0 :: rest, f.transferOk = true) →
      db.inferences = [] →
      md.devicetype.night_session = true →
      pyStrLt (pyHeadSplitDot f0.filename) "120000" = true →
      ∃ db2, upload_files db dev d (f0 :: rest) true =
          .ok (db2, "All files uploaded successfully")
        ∧ inferredDates db2 dev = [CalDate.predDay d])
    ∧ (∀ (db : Db) (dev : String) (d : CalDate) (f0 : UFile) (rest : List UFile)
        (md : Metadata),
      get_metadata db dev d = .ok md →
      (∀ f ∈ f0 :: rest, f.transferOk = true) →
      db.inferences = [] →
      (md.devicetype.night_session && pyStrLt (pyHeadSplitDot f0.filename) "120000") = false →
      ∃ db2, upload_files db dev d (f0 :: rest) true =
          .ok (db2, "All files uploaded successfully")
        ∧ inferredDates db2 dev = [d])
    ∧ uploadSessionDates dbHier "dev1" ⟨2024, 3, 2⟩ [⟨"053000.jpg", true⟩] true =
        some [⟨2024, 3, 1⟩]
    ∧ uploadSessionDates dbHier "dev1" ⟨2024, 3, 2⟩ [⟨"140000.jpg", true⟩] true =
        some [⟨2024, 3, 2⟩] := by
  refine ⟨?_, ?_, rfl, rfl⟩
  · intro db dev d f0 rest md hmeta hok hemp hnight hlt
    refine ⟨_, upload_files_success hmeta hok, ?_⟩
    rw [hnight, hlt]
    simp only [Bool.and_self, if_true]
    exact inferredDates_create_of_empty db dev md.deployment.id (CalDate.predDay d) hemp
  · intro db dev d f0 rest md hmeta hok hemp hcond
    refine ⟨_, upload_files_success hmeta hok, ?_⟩
    rw [hcond]
    simp only [Bool.false_eq_true, if_false]
    exact inferredDates_create_of_empty db dev md.deployment.id d hemp

/-- C6 witness: the night-rollover branch applied to the fixture. -/
theorem c6_session_date_witness :
    ∃ db2, upload_files dbHier "dev1" ⟨2024, 3, 2⟩ [⟨"053000.jpg", true⟩] true =
        .ok (db2, "All files uploaded successfully")
      ∧ inferredDates db2 "dev1" = [⟨2024, 3, 1⟩] :=
  c6_session_date.1 dbHier "dev1" ⟨2024, 3, 2⟩ ⟨"053000.jpg", true⟩ [] mdHier rfl
    (by decide) rfl rfl (by decide)

/-- C7: a batch containing a failing transfer never returns the success
result, leaves the relational store untouched (create_inference is never
reached), and — when the metadata resolves — surfaces as a single
aggregate BadRequest error. -/
theorem c7_transfer_failure_aborts :
    ∀ (db : Db) (dev : String) (d : CalDate) (files : List UFile) (commitOk : Bool)
      (f : UFile), f ∈ files → f.transferOk = false →
      (∀ db2 m, upload_files db dev d files commitOk ≠ .ok (db2, m))
      ∧ uploadResultDb db dev d files commitOk = db
      ∧ (∀ md, get_metadata db dev d = .ok md →
          ∃ s, upload_files db dev d files commitOk = .error (.badRequest s)) := by
  intro db dev d files commitOk f hf hbad
  rcases hmeta : get_metadata db dev d with e | md
  · have hup : upload_files db dev d files commitOk = .error e := by
      simp [upload_files, hmeta]
    refine ⟨(fun db2 m h => by rw [hup] at h; cases h), ?_, ?_⟩
    · simp [uploadResultDb, hup]
    · intro md hmd
      cases hmd
  · rcases hfind : files.find? (fun f => !f.transferOk) with _ | g
    · exfalso
      have := List.find?_eq_none.mp hfind f hf
      simp [hbad] at this
    · have hup : upload_files db dev d files commitOk =
          .error (.badRequest ("Failed to upload files: 400: Error uploading " ++
            ( get_prefix md d) ++ "/" ++ g.filename ++ ": transfer error")) := by
        simp [upload_files, hmeta, hfind]
      refine ⟨(fun db2 m h => by rw [hup] at h; cases h), ?_, ?_⟩
      · simp [uploadResultDb, hup]
      · intro md' _
        exact ⟨_, hup⟩

/-- C7 witness: one failing transfer in a two-file batch on the fixture
leaves the store unchanged. -/
theorem c7_transfer_failure_aborts_witness :
    uploadResultDb dbHier "dev1" ⟨2024, 3, 2⟩ [⟨"a.jpg", true⟩, ⟨"b.jpg", false⟩] true =
      dbHier :=
  (c7_transfer_failure_aborts dbHier "dev1" ⟨2024, 3, 2⟩
    [⟨"a.jpg", true⟩, ⟨"b.jpg", false⟩] true ⟨"b.jpg", false⟩ (by decide) rfl).2.1

/-- C8 counterexample: all transfers of the batch succeed but the ledger
write fails; the request does not return success — the failure escapes as
an unhandled error. -/
theorem c8_counterexample :
    upload_files dbHier "dev1" ⟨2024, 3, 2⟩ [⟨"140000.jpg", true⟩] false =
      .error (.internalError "ledger write failed") := rfl

/-- C8 amended: when every transfer succeeds but the ledger write inside
create_inference fails, neither create_inference nor upload_files handles
the exception, so the upload request fails with the propagated error
instead of returning success. -/
theorem c8_ledger_failure_propagates :
    ∀ (db : Db) (dev : String) (d : CalDate) (f0 : UFile) (rest : List UFile)
      (md : Metadata),
      get_metadata db dev d = .ok md →
      (∀ f ∈ f0 :: rest, f.transferOk = true) →
      upload_files db dev d (f0 :: rest) false =
        .error (.internalError "ledger write failed") := by
  intro db dev d f0 rest md hmeta hok
  have hfind : (f0 :: rest).find? (fun f => !f.transferOk) = none :=
    List.find?_eq_none.mpr (fun f hf => by simp [hok f hf])
  simp [upload_files, hmeta, hfind]

/-- C8 amended witness: a two-file all-success batch with a failing ledger
write, on the fixture. -/
theorem c8_ledger_failure_witness :
    upload_files dbHier "dev1" ⟨2024, 3, 2⟩ [⟨"a.jpg", true⟩, ⟨"b.jpg", true⟩] false =
      .error (.internalError "ledger write failed") :=
  c8_ledger_failure_propagates dbHier "dev1" ⟨2024, 3, 2⟩ ⟨"a.jpg", true⟩
    [⟨"b.jpg", true⟩] mdHier rfl (by decide)

/-- C10: an empty batch never yields the success message and never touches
the ledger; once the metadata resolves (all zero transfers trivially
succeed) the read of files[0] fails, surfacing as an unhandled IndexError. -/
theorem c10_empty_batch :
    ∀ (db : Db) (dev : String) (d : CalDate) (commitOk : Bool),
      (∀ db2 m, upload_files db dev d [] commitOk ≠ .ok (db2, m))
      ∧ uploadResultDb db dev d [] commitOk = db
      ∧ (∀ md, get_metadata db dev d = .ok md →
          upload_files db dev d [] commitOk =
            .error (.internalError "IndexError: list index out of range")) := by
  intro db dev d commitOk
  rcases hmeta : get_metadata db dev d with e | md
  · have hup : upload_files db dev d [] commitOk = .error e := by
      simp [upload_files, hmeta]
    refine ⟨(fun db2 m h => by rw [hup] at h; cases h), ?_, ?_⟩
    · simp [uploadResultDb, hup]
    · intro md hmd
      cases hmd
  · have hup : upload_files db dev d [] commitOk =
        .error (.internalError "IndexError: list index out of range") := by
      simp [upload_files, hmeta]
    refine ⟨(fun db2 m h => by rw [hup] at h; cases h), ?_, fun _ _ => hup⟩
    simp [uploadResultDb, hup]

/-- C10 witness: the empty batch on the fixture crashes with IndexError
and leaves the store unchanged. -/
theorem c10_empty_batch_witness :
    upload_files dbHier "dev1" ⟨2024, 3, 2⟩ [] true =
      .error (.internalError "IndexError: list index out of range") :=
  (c10_empty_batch dbHier "dev1" ⟨2024, 3, 2⟩ true).2.2 mdHier rfl

/-! ## C3 and C4: hierarchical key construction -/

/-- C3 counterexample: on the full hierarchy, the query-side key built by
validate_prefix writes the date as 2024/3/2 while the upload side stores
under 2024/03/02 — the two prefixes differ in zero padding. -/
theorem c3_counterexample :
    validate_prefix dbHier (some "UKCEH") (some "GB") (some "net1") (some "dep1")
        (some "moth") (some 2024) (some 3) (some 2) ⟨2026, 10, 12⟩ =
      .ok "UKCEH/GB/net1/dep1/moth/2024/3/2"
    ∧ uploadStoredKey dbHier "dev1" ⟨2024, 3, 2⟩ =
        some "UKCEH/GB/net1/dep1/moth/2024/03/02"
    ∧ ("UKCEH/GB/net1/dep1/moth/2024/3/2" : String) ≠
        "UKCEH/GB/net1/dep1/moth/2024/03/02" :=
  ⟨rfl, rfl, by decide⟩

/-- C3 amended: when the supplied segments resolve and, in canonical case,
match the hierarchy the device resolves to, the two prefixes agree
whenever month and day both have two digits (the query side omits the
zero padding that the upload key carries for single-digit months and
days). -/
theorem c3_query_key_matches_upload_key :
    ∀ (db : Db) (org ctry net dep dt : String) (y m d : Nat) (today : CalDate)
      (md : Metadata) (nrow : Network) (devId : String),
      get_metadata db devId ⟨y, m, d⟩ = .ok md →
      org ≠ "" → ctry ≠ "" → net ≠ "" → dep ≠ "" → dt ≠ "" →
      organisation_exists db org = .ok true →
      country_exists db ctry = .ok true →
      network_name_exists db net org ctry = .ok true →
      get_network_by_name db net org ctry = .ok (some nrow) →
      deployment_name_exists db dep nrow.id none = .ok true →
      devicetype_exists db dt = .ok true →
      pyUpper org = md.organisation.name →
      pyUpper ctry = md.network.country_code →
      net = md.network.name →
      dep = md.deployment.name →
      pyLower dt = md.device.devicetype_name →
      2000 ≤ y → y ≤ today.year → 10 ≤ m → m ≤ 12 → 10 ≤ d →
      isValidDate y m d = true →
      validate_prefix db (some org) (some ctry) (some net) (some dep) (some dt)
          (some y) (some m) (some d) today = .ok ( get_prefix md ⟨y, m, d⟩) := by
  intro db org ctry net dep dt y m d today md nrow devId hmeta horg hctry hnet hdep hdt
    hoe hce hne hgn hde hdte hnorg hnctry hnnet hndep hndt hy1 hy2 hm1 hm2 hd1 hvd
  have hy0 : ¬(y = 0) := by omega
  have hycond : ¬(y < 2000 ∨ today.year < y) := by omega
  have hm0 : ¬(m = 0) := by omega
  have hmcond : ¬(m < 1 ∨ 12 < m) := by omega
  have hd0 : ¬(d = 0) := by omega
  have hpad2m : pad2 m = Nat.repr m := by
    have : ¬(m < 10) := by omega
    simp [pad2, this]
  have hpad2d : pad2 d = Nat.repr d := by
    have : ¬(d < 10) := by omega
    simp [pad2, this]
  simp only [ validate_prefix, horg, hoe, hctry, hce, hnet, hne, hdep, hgn, hde, hdt,
    hdte, hy0, hycond, hm0, hmcond, hd0, hvd, if_false, if_true, ite_false, ite_true]
  simp only [ get_prefix, hpad2m, hpad2d, ← hnorg, ← hnctry, ← hnnet, ← hndep, ← hndt]

/-- C3 amended witness: 2024-10-12 on the fixture, where month and day are
both two-digit. -/
theorem c3_query_key_matches_upload_key_witness :
    validate_prefix dbHier (some "UKCEH") (some "GB") (some "net1") (some "dep1")
        (some "moth") (some 2024) (some 10) (some 12) ⟨2026, 10, 12⟩ =
      .ok ( get_prefix mdHier ⟨2024, 10, 12⟩) :=
  c3_query_key_matches_upload_key dbHier "UKCEH" "GB" "net1" "dep1" "moth" 2024 10 12
    ⟨2026, 10, 12⟩ mdHier ⟨1, "UKCEH", "GB", "net1", false⟩ "dev1" rfl
    (by decide) (by decide) (by decide) (by decide) (by decide)
    rfl rfl rfl rfl rfl rfl
    (by decide) (by decide) (by decide) (by decide) (by decide)
    (by decide) (by decide) (by decide) (by decide) (by decide) (by decide)

/-- C4 counterexample: network is supplied (and even resolvable) while its
parent country is absent, yet validate_prefix returns "UKCEH" — a prefix
that silently ignores the supplied child — instead of failing with
NotFound. -/
theorem c4_counterexample :
    network_name_exists dbHier "net1" "UKCEH" "GB" = .ok true
    ∧ validate_prefix dbHier (some "UKCEH") none (some "net1") none none none none none
        ⟨2026, 10, 12⟩ = .ok "UKCEH" :=
  ⟨rfl, rfl⟩

/-- C4 amended: a supplied segment whose own existence check fails makes
validate_prefix raise NotFound naming that segment (its parents having
resolved); but an absent parent does not fail — the call returns the
prefix of the resolved leading segments and silently ignores every later
supplied segment. -/
theorem c4_first_failing_segment :
    (∀ (db : Db) (country network deployment devicetype : Option String)
        (year month day : Option Nat) (today : CalDate) (org : String),
      org ≠ "" → organisation_exists db org = .ok false →
      validate_prefix db (some org) country network deployment devicetype
          year month day today =
        .error (.notFound ("Organisation " ++ org ++ " does not exist.")))
    ∧ (∀ (db : Db) (network deployment devicetype : Option String)
        (year month day : Option Nat) (today : CalDate) (org ctry : String),
      org ≠ "" → organisation_exists db org = .ok true →
      ctry ≠ "" → country_exists db ctry = .ok false →
      validate_prefix db (some org) (some ctry) network deployment devicetype
          year month day today =
        .error (.notFound ("Country " ++ ctry ++ " does not exist.")))
    ∧ (∀ (db : Db) (deployment devicetype : Option String)
        (year month day : Option Nat) (today : CalDate) (org ctry net : String),
      org ≠ "" → organisation_exists db org = .ok true →
      ctry ≠ "" → country_exists db ctry = .ok true →
      net ≠ "" → network_name_exists db net org ctry = .ok false →
      validate_prefix db (some org) (some ctry) (some net) deployment devicetype
          year month day today =
        .error (.notFound ("Network " ++ net ++ " does not exist for " ++ org ++
          " in " ++ ctry ++ ".")))
    ∧ (∀ (db : Db) (devicetype : Option String) (year month day : Option Nat)
        (today : CalDate) (org ctry net dep : String) (nrow : Network),
      org ≠ "" → organisation_exists db org = .ok true →
      ctry ≠ "" → country_exists db ctry = .ok true →
      net ≠ "" → network_name_exists db net org ctry = .ok true →
      dep ≠ "" → get_network_by_name db net org ctry = .ok (some nrow) →
      deployment_name_exists db dep nrow.id none = .ok false →
      validate_prefix db (some org) (some ctry) (some net) (some dep) devicetype
          year month day today =
        .error (.notFound ("Deployment " ++ dep ++ " does not exist for " ++ net ++ ".")))
    ∧ (∀ (db : Db) (year month day : Option Nat) (today : CalDate)
        (org ctry net dep dt : String) (nrow : Network),
      org ≠ "" → organisation_exists db org = .ok true →
      ctry ≠ "" → country_exists db ctry = .ok true →
      net ≠ "" → network_name_exists db net org ctry = .ok true →
      dep ≠ "" → get_network_by_name db net org ctry = .ok (some nrow) →
      deployment_name_exists db dep nrow.id none = .ok true →
      dt ≠ "" → devicetype_exists db dt = .ok false →
      validate_prefix db (some org) (some ctry) (some net) (some dep) (some dt)
          year month day today =
        .error (.notFound ("DeviceType " ++ dt ++ " does not exist.")))
    ∧ (∀ (db : Db) (network deployment devicetype : Option String)
        (year month day : Option Nat) (today : CalDate) (org : String),
      org ≠ "" → organisation_exists db org = .ok true →
      validate_prefix db (some org) none network deployment devicetype
          year month day today = .ok (pyUpper org)) := by
  refine ⟨?_, ?_, ?_, ?_, ?_, ?_⟩
  · intro db country network deployment devicetype year month day today org horg hoe
    simp [ validate_prefix, horg, hoe]
  · intro db network deployment devicetype year month day today org ctry
      horg hoe hctry hce
    simp [ validate_prefix, horg, hoe, hctry, hce]
  · intro db deployment devicetype year month day today org ctry net
      horg hoe hctry hce hnet hne
    simp [ validate_prefix, horg, hoe, hctry, hce, hnet, hne]
  · intro db devicetype year month day today org ctry net dep nrow
      horg hoe hctry hce hnet hne hdep hgn hde
    simp [ validate_prefix, horg, hoe, hctry, hce, hnet, hne, hdep, hgn, hde]
  · intro db year month day today org ctry net dep dt nrow
      horg hoe hctry hce hnet hne hdep hgn hde hdt hdte
    simp [ validate_prefix, horg, hoe, hctry, hce, hnet, hne, hdep, hgn, hde, hdt, hdte]
  · intro db network deployment devicetype year month day today org horg hoe
    simp [ validate_prefix, horg, hoe]

/-- C4 amended witness: an unknown organisation fails with NotFound naming
it, and the absent-country call returns the bare organisation prefix. -/
theorem c4_first_failing_segment_witness :
    validate_prefix dbHier (some "NOPE") (some "GB") (some "net1") none none none none
        none ⟨2026, 10, 12⟩ =
      .error (.notFound "Organisation NOPE does not exist.")
    ∧ validate_prefix dbHier (some "UKCEH") none (some "net1") none none none none none
        ⟨2026, 10, 12⟩ = .ok (pyUpper "UKCEH") :=
  ⟨c4_first_failing_segment.1 dbHier (some "GB") (some "net1") none none none none none
      ⟨2026, 10, 12⟩ "NOPE" (by decide) rfl,
    (c4_first_failing_segment.2.2.2.2.2) dbHier (some "net1") none none none none none
      ⟨2026, 10, 12⟩ "UKCEH" (by decide) rfl⟩

end LepiSense
